import Mathlib

/-!
A shallow embedding of the HPK Pod Execution Agent (the Go program whose
entry point is `main` and whose helpers are `getPodDetails`, `fileExists`,
`prepareContainers`, `prepareDNS`, `announceIP`, `cleanEnvironment`,
`handleInitContainers` and `handleContainers`).

Filesystem, process and network effects are made explicit: each effectful
step is parametrised by the outcome the operating system would give it
(success flags, stat results, child exit codes), and the agent's observable
behaviour is a trace of artifact-write and process-lifecycle events plus a
process exit status.  All definitions are translated from the Go source;
the theorems at the end of the file settle the specification claims.
-/

namespace HPK

/-- Result of one `os.Stat` call as distinguished by `fileExists`:
`ok isDir` models a stat that succeeded, `errNotExist` an error for which
`os.IsNotExist` holds, and `errOther` any other stat error. -/
inductive StatResult where
  | ok (isDir : Bool)
  | errNotExist
  | errOther
deriving DecidableEq

/-- The Go `fileExists`: the empty filename gives `false` without touching
the filesystem; a not-exist stat error gives `false`; any other stat error
panics (modelled as `none`); a successful stat gives `true` exactly when the
path is not a directory. -/
def fileExists (stat : String → StatResult) (filename : String) : Option Bool :=
  if filename = "" then some false
  else
    match stat filename with
    | StatResult.errNotExist => some false
    | StatResult.errOther => none
    | StatResult.ok isDir => some (!isDir)

/-- The `executionMode` computation shared by `handleInitContainers` and
`handleContainers`: the Go code initialises the mode to `"exec"` and
switches to `"run"` exactly when `container.Command == nil`; a Go nil slice
is modelled as `none` and a present (possibly empty) slice as `some`. -/
def executionMode (command : Option (List String)) : String :=
  match command with
  | none => "run"
  | some _ => "exec"

/-- One entry of `container.VolumeMounts`. -/
structure VolumeMount where
  name : String
  mountPath : String
  readOnly : Bool
deriving DecidableEq

/-- The per-container data consumed by the argument-vector construction. -/
structure ContainerSpec where
  name : String
  image : String
  command : Option (List String)
  args : List String
  volumeMounts : List VolumeMount
deriving DecidableEq

/-- The bind list built from `container.VolumeMounts`:
`binds[i] = hostPath + ":" + mount.MountPath + ":" + accessMode` with
`hostPath = filepath.Join(podPath.VolumeDir(), mount.Name)` and access mode
`ro` for read-only mounts, `rw` otherwise. -/
def buildBinds (volumeDir : String) (mounts : List VolumeMount) : List String :=
  mounts.map fun m =>
    (volumeDir ++ "/" ++ m.name) ++ ":" ++ m.mountPath ++ ":" ++ (if m.readOnly then "ro" else "rw")

/-- The extra `--bind` value added when `hpkEnv` is true. -/
def dnsBinds : String :=
  "/scratch/etc/resolv.conf:/etc/resolv.conf,/scratch/etc/hosts:/etc/hosts"

/-- `*bindArgs += s` where `bindArgs := &apptainerArgs[len(apptainerArgs)-1]`:
string-extend the last element of the list. -/
def appendToLast (xs : List String) (s : String) : List String :=
  match xs with
  | [] => []
  | [x] => [x ++ s]
  | x :: y :: rest => x :: appendToLast (y :: rest) s

/-- The apptainer argument vector built by `handleInitContainers` for one
init container.  `isDebug` is `DEBUG_MODE == "true"`, `envFileExists` is
`fileExists(envFilePath)`, `instanceName` is
`namespace_podName_containerName`, and `imagePath` stands for
`hpk.ImageDir() + image.ParseImageName(container.Image)`.  Note that the
`if len(binds) > 0` concatenation sits outside the `if hpkEnv` block. -/
def initApptainerArgs (isDebug hpkEnv : Bool) (uid gid : Int) (envFileExists : Bool)
    (instanceName imagePath volumeDir : String) (c : ContainerSpec) : List String :=
  let binds := buildBinds volumeDir c.volumeMounts
  let a0 := [(if isDebug then "--debug" else "--quiet"), executionMode c.command,
             "--cleanenv", "--writable-tmpfs", "--no-mount", "home", "--unsquash"]
  let a1 := if hpkEnv then a0 ++ ["--bind", dnsBinds] else a0
  let a2 := if binds.length > 0 then appendToLast a1 ("," ++ String.intercalate "," binds) else a1
  let a3 := if uid ≠ 0 then
      a2 ++ ["--security", "uid:" ++ toString uid ++ ",gid:" ++ toString uid, "--userns"]
    else a2
  let a4 := if gid ≠ 0 then
      a3 ++ ["--security", "gid:" ++ toString gid, "--userns"]
    else a3
  let a5 := if envFileExists then
      a4 ++ ["--env-file", "/scratch/" ++ instanceName ++ ".env"]
    else a4
  a5 ++ [imagePath] ++ c.command.getD [] ++ c.args

/-- The apptainer argument vector built by `handleContainers` for one main
container.  Identical to the init-container construction except that the
`if len(binds) > 0` concatenation sits inside the `if hpkEnv` block. -/
def mainApptainerArgs (isDebug hpkEnv : Bool) (uid gid : Int) (envFileExists : Bool)
    (instanceName imagePath volumeDir : String) (c : ContainerSpec) : List String :=
  let binds := buildBinds volumeDir c.volumeMounts
  let a0 := [(if isDebug then "--debug" else "--quiet"), executionMode c.command,
             "--cleanenv", "--writable-tmpfs", "--no-mount", "home", "--unsquash"]
  let a2 := if hpkEnv then
      let a1 := a0 ++ ["--bind", dnsBinds]
      if binds.length > 0 then appendToLast a1 ("," ++ String.intercalate "," binds) else a1
    else a0
  let a3 := if uid ≠ 0 then
      a2 ++ ["--security", "uid:" ++ toString uid ++ ",gid:" ++ toString uid, "--userns"]
    else a2
  let a4 := if gid ≠ 0 then
      a3 ++ ["--security", "gid:" ++ toString gid, "--userns"]
    else a3
  let a5 := if envFileExists then
      a4 ++ ["--env-file", "/scratch/" ++ instanceName ++ ".env"]
    else a4
  a5 ++ [imagePath] ++ c.command.getD [] ++ c.args

/-- The security portion of the argument vector, as an explicit list (used
to state theorems about the construction above). -/
def securitySection (uid gid : Int) : List String :=
  (if uid ≠ 0 then
    ["--security", "uid:" ++ toString uid ++ ",gid:" ++ toString uid, "--userns"]
  else []) ++
  (if gid ≠ 0 then
    ["--security", "gid:" ++ toString gid, "--userns"]
  else [])

/-- The env-file portion of the argument vector. -/
def envFileSection (envFileExists : Bool) (instanceName : String) : List String :=
  if envFileExists then ["--env-file", "/scratch/" ++ instanceName ++ ".env"] else []

/-- The seven leading tokens shared by both constructions. -/
def apptainerBaseArgs (isDebug : Bool) (mode : String) : List String :=
  [(if isDebug then "--debug" else "--quiet"), mode,
   "--cleanenv", "--writable-tmpfs", "--no-mount", "home", "--unsquash"]

/-- The `resolv.conf` content synthesised by `prepareDNS`.  This is the Go
raw string literal of the `fmt.Sprintf` call: its second and third lines
carry the leading tab of the source indentation. -/
def resolvConfContent (namespaceName kubeDNSIP : String) : String :=
  "search " ++ namespaceName ++ ".svc.cluster.local svc.cluster.local cluster.local"
    ++ "\n" ++ "\t" ++ "nameserver " ++ kubeDNSIP
    ++ "\n" ++ "\t" ++ "options ndots:5"

/-- Split a character list at every character satisfying `p`; the
separators are dropped and empty groups are kept. -/
def splitOnPred (p : Char → Bool) : List Char → List (List Char)
  | [] => [[]]
  | c :: rest =>
    if p c then [] :: splitOnPred p rest
    else
      match splitOnPred p rest with
      | [] => [[c]]
      | g :: gs => (c :: g) :: gs

/-- The lines of a string (split at every newline). -/
def strLines (s : String) : List String :=
  (splitOnPred (fun c => c == '\n') s.data).map fun cs => String.mk cs

/-- The whitespace-separated tokens of one line (split at spaces and tabs,
dropping empty fields). -/
def lineTokens (s : String) : List String :=
  ((splitOnPred (fun c => c == ' ' || c == '\t') s.data).filter fun g => !g.isEmpty).map
    fun cs => String.mk cs

/-- Is this line a `nameserver` directive (first token `nameserver`)? -/
def isNameserverLine (s : String) : Bool :=
  match lineTokens s with
  | t :: _ => t == "nameserver"
  | [] => false

/-- The value of a one-value resolver directive: its second token. -/
def directiveValue (s : String) : Option String :=
  (lineTokens s).get? 1

/-- Per-poll RPC timeout of `getPodDetails` (`context.WithTimeout(…, 10*time.Second)`),
in seconds. -/
def podFetchRpcTimeout : Nat := 10

/-- Retry sleep of the acquisition loop (`time.Sleep(5 * time.Second)`), in seconds. -/
def podRetrySleep : Nat := 5

/-- Overall acquisition deadline (`time.After(5 * time.Minute)`), in seconds. -/
def podAcquireDeadline : Nat := 300

/-- Result of the pod-acquisition loop: either the 5-minute timer fired, or
the `k`-th `getPodDetails` call succeeded after `elapsed` seconds. -/
inductive AcquireResult where
  | timeout
  | success (attempt : Nat) (elapsed : Nat)
deriving DecidableEq

/-- The `acquire_pod_loop` of `main`.  `fetch i` is the pod returned by the
`i`-th `getPodDetails` call (`none` = error), `dur i` the real duration of
that RPC, capped at the 10-second per-call timeout.  The loop checks the
5-minute timer, then polls; a failed poll sleeps 5 seconds and retries. -/
def acquireLoop (fetch : Nat → Option Nat) (dur : Nat → Nat) (i : Nat) (elapsed : Nat) :
    AcquireResult :=
  if podAcquireDeadline ≤ elapsed then AcquireResult.timeout
  else
    match fetch i with
    | some _ => AcquireResult.success i (elapsed + min (dur i) podFetchRpcTimeout)
    | none => acquireLoop fetch dur (i + 1) (elapsed + min (dur i) podFetchRpcTimeout + podRetrySleep)
termination_by podAcquireDeadline - elapsed
decreasing_by
  simp only [podAcquireDeadline, podRetrySleep, podFetchRpcTimeout] at *
  omega

/-- Success/failure of each effect performed by `prepareDNS`, `announceIP`
and `cleanEnvironment`.  `kubednsIP` is `os.Getenv("KUBEDNS_IP")` (the
empty string when the variable is unset). -/
structure PrepWorld where
  mkdirOk : Bool
  kubednsIP : String
  resolvWriteOk : Bool
  hostnameOk : Bool
  ifaceOk : Bool
  hostsWriteOk : Bool
  announceIfaceOk : Bool
  ipWriteOk : Bool
  unsetenvOk : Bool
deriving DecidableEq

/-- `prepareDNS` succeeds iff `/scratch/etc` is created, `KUBEDNS_IP` is
set, `resolv.conf` is written, the hostname and interface addresses are
obtained and `hosts` is written — in that order, failing at the first
error. -/
def prepareDNS (w : PrepWorld) : Bool :=
  w.mkdirOk && !(w.kubednsIP == "") && w.resolvWriteOk && w.hostnameOk &&
    w.ifaceOk && w.hostsWriteOk

/-- `announceIP` succeeds iff the interface addresses are obtained and the
`.ip` file is written. -/
def announceIP (w : PrepWorld) : Bool :=
  w.announceIfaceOk && w.ipWriteOk

/-- `cleanEnvironment` succeeds iff all the `os.Unsetenv` calls succeed. -/
def cleanEnvironment (w : PrepWorld) : Bool :=
  w.unsetenvOk

/-- `prepareContainers` = `prepareDNS` then `announceIP` then
`cleanEnvironment`, each failure aborting. -/
def prepareContainers (w : PrepWorld) : Bool :=
  prepareDNS w && announceIP w && cleanEnvironment w

/-- Observable events of one agent run: artifact writes and process
lifecycle steps, tagged with the spec-list index of the container.  The
first four are emitted by `handleInitContainers`, the last four by the
supervisory tasks spawned by `handleContainers`. -/
inductive Event where
  | wroteId (i : Nat)
  | started (i : Nat)
  | exited (i : Nat) (code : Nat)
  | wroteExitCode (i : Nat)
  | mainStarted (i : Nat)
  | mainWroteId (i : Nat)
  | mainExited (i : Nat) (code : Nat)
  | mainWroteExitCode (i : Nat)
deriving DecidableEq

/-- The container index an event refers to. -/
def Event.cidx : Event → Nat
  | Event.wroteId i => i
  | Event.started i => i
  | Event.exited i _ => i
  | Event.wroteExitCode i => i
  | Event.mainStarted i => i
  | Event.mainWroteId i => i
  | Event.mainExited i _ => i
  | Event.mainWroteExitCode i => i

/-- Outcome of the `cmd.Run()` of one init container: either `apptainer`
could not be started at all, or the child ran and exited with `code`.
`cmd.Run()` returns an error in the `startFail` case and whenever
`code ≠ 0`. -/
inductive RunOutcome where
  | startFail
  | exited (code : Nat)
deriving DecidableEq

/-- Success/failure of each effect of one `handleInitContainers` loop
iteration, in source order: env-file probe and evaluation, `.id` write,
log-file creation, the blocking `cmd.Run()`, and the `.exitCode` write. -/
structure InitOutcome where
  envExists : Bool
  envExecOk : Bool
  envWriteOk : Bool
  idWriteOk : Bool
  logCreateOk : Bool
  run : RunOutcome
  exitWriteOk : Bool
deriving DecidableEq

/-- The events produced by one `handleInitContainers` iteration for the
container at spec index `i`: failures return from the function early, and
a `cmd.Run()` error (start failure or non-zero exit) aborts before the
`.exitCode` write. -/
def initBlock (o : InitOutcome) (i : Nat) : List Event :=
  if o.envExists && (!o.envExecOk || !o.envWriteOk) then []
  else if !o.idWriteOk then []
  else if !o.logCreateOk then [Event.wroteId i]
  else
    match o.run with
    | RunOutcome.startFail => [Event.wroteId i]
    | RunOutcome.exited c =>
      [Event.wroteId i, Event.started i, Event.exited i c] ++
        (if c = 0 && o.exitWriteOk then [Event.wroteExitCode i] else [])

/-- Does the `handleInitContainers` loop move on to the next container
after this iteration?  Only when every effect succeeded and the child
exited 0. -/
def initBlockOk (o : InitOutcome) : Bool :=
  !(o.envExists && (!o.envExecOk || !o.envWriteOk)) && o.idWriteOk && o.logCreateOk &&
    (match o.run with
     | RunOutcome.exited 0 => true
     | _ => false) && o.exitWriteOk

/-- `handleInitContainers`: run the init containers strictly in list order
starting at spec index `i`, accumulating the event trace; the Boolean is
`true` iff the function returned `nil` (no error). -/
def handleInitContainers (outs : List InitOutcome) (i : Nat) : List Event × Bool :=
  match outs with
  | [] => ([], true)
  | o :: rest =>
    if initBlockOk o then
      let r := handleInitContainers rest (i + 1)
      (initBlock o i ++ r.1, r.2)
    else (initBlock o i, false)

/-- Success/failure of each effect of one main-container supervisory task,
in source order: env-file handling (done in the loop before the task is
spawned), log creation, `cmd.Start()`, the child's exit code, the `.id`
write and the `.exitCode` write. -/
structure MainOutcome where
  envExists : Bool
  envExecOk : Bool
  envWriteOk : Bool
  logCreateOk : Bool
  startOk : Bool
  exitCode : Nat
  idWriteOk : Bool
  exitWriteOk : Bool
deriving DecidableEq

/-- One supervisory goroutine of `handleContainers` for the container at
spec index `i`: returns its event trace and whether it panicked.  When
`cmd.Start()` fails the code only logs and falls through to
`pid := cmd.Process.Pid`; `cmd.Process` is nil after a failed `Start`, so
the task dereferences a nil pointer and panics — which in Go brings down
the whole process. -/
def mainTask (o : MainOutcome) (i : Nat) : List Event × Bool :=
  if !o.logCreateOk then ([], false)
  else if !o.startOk then ([], true)
  else
    if !o.idWriteOk then ([Event.mainStarted i], false)
    else
      let e2 := [Event.mainStarted i, Event.mainWroteId i, Event.mainExited i o.exitCode]
      if !o.exitWriteOk then (e2, false)
      else (e2 ++ [Event.mainWroteExitCode i], false)

/-- `handleContainers`: for each main container, evaluate its env file in
the loop (an env failure returns the error, leaving later containers
unspawned) and spawn one supervisory task; returns the list of spawned
tasks and whether the loop returned `nil`. -/
def handleContainers (outs : List MainOutcome) (i : Nat) :
    List (List Event × Bool) × Bool :=
  match outs with
  | [] => ([], true)
  | o :: rest =>
    if o.envExists && (!o.envExecOk || !o.envWriteOk) then ([], false)
    else
      let r := handleContainers rest (i + 1)
      (mainTask o i :: r.1, r.2)

/-- The whole outside world one agent run interacts with. -/
structure World where
  fetch : Nat → Option Nat
  dur : Nat → Nat
  prep : PrepWorld
  inits : List InitOutcome
  mains : List MainOutcome

/-- Result of a run of `main`: normal process exit with a status, or a Go
panic (itself a non-zero process exit, but distinguished here).  Both carry
the event trace produced before the run ended. -/
inductive PeaResult where
  | exited (status : Nat) (trace : List Event)
  | panicked (trace : List Event)
deriving DecidableEq

/-- The trace carried by a result. -/
def PeaResult.trace : PeaResult → List Event
  | PeaResult.exited _ t => t
  | PeaResult.panicked t => t

/-- The pod snapshot used for launching: after the loop breaks on the first
successful fetch, `main` calls `getPodDetails` once more and uses that
result (panicking if it fails). -/
def launchSnapshot (w : World) : Option Nat :=
  match acquireLoop w.fetch w.dur 0 0 with
  | AcquireResult.timeout => none
  | AcquireResult.success k _ => w.fetch (k + 1)

/-- `main` after flag/kubeconfig setup: acquisition loop (timeout calls
`os.Exit(1)`), the post-loop re-fetch (`panic(err)` on failure), then
`prepareContainers`, `handleInitContainers` and `handleContainers` — each
of whose failures is logged followed by a plain `return` from `main`,
which makes the process exit with status 0.  A clean drain also returns
from `main` (status 0); a panicked supervisory task crashes the process. -/
def peaMain (w : World) : PeaResult :=
  match acquireLoop w.fetch w.dur 0 0 with
  | AcquireResult.timeout => PeaResult.exited 1 []
  | AcquireResult.success k _ =>
    match w.fetch (k + 1) with
    | none => PeaResult.panicked []
    | some _ =>
      if !prepareContainers w.prep then PeaResult.exited 0 []
      else
        let ir := handleInitContainers w.inits 0
        if !ir.2 then PeaResult.exited 0 ir.1
        else
          let cr := handleContainers w.mains 0
          let mt := (cr.1.map Prod.fst).flatten
          if (cr.1.map Prod.snd).any id then PeaResult.panicked (ir.1 ++ mt)
          else PeaResult.exited 0 (ir.1 ++ mt)

/-- The event trace of one whole run. -/
def peaTrace (w : World) : List Event :=
  (peaMain w).trace

/-- `e1` occurs strictly before `e2` in the trace `t`. -/
def Precedes (t : List Event) (e1 e2 : Event) : Prop :=
  ∃ a b, t = a ++ b ∧ e1 ∈ a ∧ e2 ∈ b

/-- The loop exits through `break acquire_pod_loop` on the very first
iteration when the first `getPodDetails` call succeeds. -/
theorem acquireLoop_first_success (fetch : Nat → Option Nat) (dur : Nat → Nat) (v : Nat)
    (h : fetch 0 = some v) :
    acquireLoop fetch dur 0 0 = AcquireResult.success 0 (min (dur 0) podFetchRpcTimeout) := by
  unfold acquireLoop
  simp [h, podAcquireDeadline]

/-- A stat oracle with one plain file, one directory and one
permission-denied path. -/
def probeStat : String → StatResult := fun s =>
  if s = "/a/file" then StatResult.ok false
  else if s = "/a/dir" then StatResult.ok true
  else if s = "/p/denied" then StatResult.errOther
  else StatResult.errNotExist

/-- C10: `fileExists` returns `false` for the empty string and for paths
whose stat fails with a not-exist error; it returns `true` exactly when the
stat succeeds on a non-directory; any other stat error makes it panic
(`none`), so it is total exactly when the path is empty or the stat error
is a not-exist error. -/
theorem C10_fileExists_spec (stat : String → StatResult) (filename : String) :
    (filename = "" → fileExists stat filename = some false) ∧
    (stat filename = StatResult.errNotExist → fileExists stat filename = some false) ∧
    (fileExists stat filename = some true ↔
      filename ≠ "" ∧ stat filename = StatResult.ok false) ∧
    (filename ≠ "" → stat filename = StatResult.errOther → fileExists stat filename = none) ∧
    ((fileExists stat filename).isSome ↔
      (filename = "" ∨ stat filename ≠ StatResult.errOther)) := by
  unfold fileExists
  by_cases h : filename = "" <;> simp only [h, if_true, if_false] <;>
    cases hs : stat filename <;> simp [hs, h]

/-- Witness for C10 at a concrete stat oracle: a plain file gives `true`, a
permission-denied path panics, the empty string gives `false`. -/
theorem C10_fileExists_spec_witness :
    fileExists probeStat "/a/file" = some true ∧
    fileExists probeStat "/p/denied" = none ∧
    fileExists probeStat "" = some false :=
  ⟨(C10_fileExists_spec probeStat "/a/file").2.2.1.mpr ⟨by decide, by decide⟩,
   (C10_fileExists_spec probeStat "/p/denied").2.2.2.1 (by decide) (by decide),
   (C10_fileExists_spec probeStat "").1 rfl⟩

/-- C6 counterexample: for the non-nil empty command `some []` the code
computes mode `exec`, while the claim (`exec` exactly when the command is
non-empty) demands `run`. -/
theorem C6_executionMode_counterexample :
    ¬ (executionMode (some ([] : List String)) = "exec" ↔
        (some ([] : List String)).getD [] ≠ []) := by
  decide

/-- C6 (amended): the execution mode is `exec` exactly when the command
field is present (non-nil, even if empty), and `run` exactly when the
command is nil. -/
theorem C6_executionMode_iff (command : Option (List String)) :
    (executionMode command = "exec" ↔ command ≠ none) ∧
    (executionMode command = "run" ↔ command = none) := by
  cases command <;> simp [executionMode]

/-- Witness for C6 at concrete commands. -/
theorem C6_executionMode_iff_witness :
    executionMode (some ["/bin/sh"]) = "exec" ∧ executionMode none = "run" :=
  ⟨(C6_executionMode_iff (some ["/bin/sh"])).1.mpr (by decide),
   (C6_executionMode_iff none).2.mpr rfl⟩

/-- The outcome of a supervisory task whose `cmd.Start()` fails (e.g. the
`apptainer` binary is missing); everything else would succeed. -/
def startFailOutcome : MainOutcome :=
  { envExists := false, envExecOk := true, envWriteOk := true, logCreateOk := true,
    startOk := false, exitCode := 0, idWriteOk := true, exitWriteOk := true }

/-- A healthy main-container outcome exiting 0. -/
def healthyMainOutcome : MainOutcome :=
  { envExists := false, envExecOk := true, envWriteOk := true, logCreateOk := true,
    startOk := true, exitCode := 0, idWriteOk := true, exitWriteOk := true }

/-- An init container whose child runs and exits with status 1
(`/bin/false`); every filesystem effect would succeed. -/
def failingInitOutcome : InitOutcome :=
  { envExists := false, envExecOk := true, envWriteOk := true, idWriteOk := true,
    logCreateOk := true, run := RunOutcome.exited 1, exitWriteOk := true }

/-- An environment in which everything works but `KUBEDNS_IP` is unset. -/
def kubednsUnsetWorld : World :=
  { fetch := fun _ => some 0, dur := fun _ => 0,
    prep := { mkdirOk := true, kubednsIP := "", resolvWriteOk := true, hostnameOk := true,
              ifaceOk := true, hostsWriteOk := true, announceIfaceOk := true, ipWriteOk := true,
              unsetenvOk := true },
    inits := [], mains := [] }

/-- An environment in which preparation succeeds but the only init
container exits 1; one healthy main container is declared. -/
def initFailWorld : World :=
  { fetch := fun _ => some 0, dur := fun _ => 0,
    prep := { mkdirOk := true, kubednsIP := "10.96.0.10", resolvWriteOk := true,
              hostnameOk := true, ifaceOk := true, hostsWriteOk := true,
              announceIfaceOk := true, ipWriteOk := true, unsetenvOk := true },
    inits := [failingInitOutcome], mains := [healthyMainOutcome] }

/-- C1: contrary to the claim, the process exit status is 0 both when
environment preparation fails (here: `KUBEDNS_IP` unset) and when an init
container fails: `main` logs the error and plain-returns, and a Go `main`
that returns exits with status 0.  (Timeout does exit 1, and a clean drain
exits 0, but the "non-zero on preparation or init failure" part is false.) -/
theorem C1_failure_paths_exit_zero :
    peaMain kubednsUnsetWorld = PeaResult.exited 0 [] ∧
    peaMain initFailWorld =
      PeaResult.exited 0 [Event.wroteId 0, Event.started 0, Event.exited 0 1] := by
  have h1 : acquireLoop kubednsUnsetWorld.fetch kubednsUnsetWorld.dur 0 0 =
      AcquireResult.success 0 0 := by
    simpa using acquireLoop_first_success kubednsUnsetWorld.fetch kubednsUnsetWorld.dur 0 rfl
  have h2 : acquireLoop initFailWorld.fetch initFailWorld.dur 0 0 =
      AcquireResult.success 0 0 := by
    simpa using acquireLoop_first_success initFailWorld.fetch initFailWorld.dur 0 rfl
  constructor
  · unfold peaMain
    rw [h1]
    rfl
  · unfold peaMain
    rw [h2]
    rfl

/-- A world whose first main container cannot be started while its sibling
is healthy; acquisition, preparation and (absent) init containers all
succeed. -/
def startFailWorld : World :=
  { fetch := fun _ => some 0, dur := fun _ => 0,
    prep := { mkdirOk := true, kubednsIP := "10.96.0.10", resolvWriteOk := true,
              hostnameOk := true, ifaceOk := true, hostsWriteOk := true,
              announceIfaceOk := true, ipWriteOk := true, unsetenvOk := true },
    inits := [], mains := [startFailOutcome, healthyMainOutcome] }

/-- C2: contrary to the claim, a supervisory task whose `cmd.Start()` fails
does not simply return: after logging it falls through to
`cmd.Process.Pid` on a nil `cmd.Process` and panics (second component
`true`), and the panic brings down the whole process — `peaMain` ends in
`panicked` even though the sibling main container was healthy, so the
other main containers are affected. -/
theorem C2_start_failure_panics :
    mainTask startFailOutcome 0 = ([], true) ∧
    peaMain startFailWorld =
      PeaResult.panicked [Event.mainStarted 1, Event.mainWroteId 1,
        Event.mainExited 1 0, Event.mainWroteExitCode 1] := by
  have h1 : acquireLoop startFailWorld.fetch startFailWorld.dur 0 0 =
      AcquireResult.success 0 0 := by
    simpa using acquireLoop_first_success startFailWorld.fetch startFailWorld.dur 0 rfl
  constructor
  · rfl
  · unfold peaMain
    rw [h1]
    rfl

/-- C3: for an init container whose child was started and exited with the
non-zero status 1, `cmd.Run()` returns an error and `handleInitContainers`
returns before the `.exitCode` write: the trace records the start and the
exit but contains no `wroteExitCode` event, contrary to the claim that the
numeric exit status is always written after termination. -/
theorem C3_nonzero_init_exit_code_not_written :
    handleInitContainers [failingInitOutcome] 0 =
      ([Event.wroteId 0, Event.started 0, Event.exited 0 1], false) ∧
    Event.wroteExitCode 0 ∉ (handleInitContainers [failingInitOutcome] 0).1 := by
  constructor
  · rfl
  · decide

/-- The part of the init-container argument vector built before the
security flags: base tokens, the optional `--bind`, and the bind-list
concatenation (which, in `handleInitContainers`, happens regardless of
`hpkEnv`). -/
def initPreArgs (isDebug hpkEnv : Bool) (volumeDir : String) (c : ContainerSpec) : List String :=
  let binds := buildBinds volumeDir c.volumeMounts
  let a0 := apptainerBaseArgs isDebug (executionMode c.command)
  let a1 := if hpkEnv then a0 ++ ["--bind", dnsBinds] else a0
  if binds.length > 0 then appendToLast a1 ("," ++ String.intercalate "," binds) else a1

/-- The part of the main-container argument vector built before the
security flags: here the bind-list concatenation happens only under
`hpkEnv`. -/
def mainPreArgs (isDebug hpkEnv : Bool) (volumeDir : String) (c : ContainerSpec) : List String :=
  let binds := buildBinds volumeDir c.volumeMounts
  let a0 := apptainerBaseArgs isDebug (executionMode c.command)
  if hpkEnv then
    let a1 := a0 ++ ["--bind", dnsBinds]
    if binds.length > 0 then appendToLast a1 ("," ++ String.intercalate "," binds) else a1
  else a0

theorem buildBinds_length_pos (volumeDir : String) (ms : List VolumeMount) (h : ms ≠ []) :
    0 < (buildBinds volumeDir ms).length := by
  simpa [buildBinds] using List.length_pos.mpr h

theorem appendToLast_base (isDebug : Bool) (mode s : String) :
    appendToLast (apptainerBaseArgs isDebug mode) s =
      [(if isDebug then "--debug" else "--quiet"), mode, "--cleanenv", "--writable-tmpfs",
       "--no-mount", "home", "--unsquash" ++ s] := rfl

theorem appendToLast_base_bind (isDebug : Bool) (mode s : String) :
    appendToLast (apptainerBaseArgs isDebug mode ++ ["--bind", dnsBinds]) s =
      apptainerBaseArgs isDebug mode ++ ["--bind", dnsBinds ++ s] := rfl

/-- The init-container argument vector decomposes as
pre-args ++ security section ++ env-file section ++ image ++ command ++ args,
with the pre-args independent of `(uid, gid)`. -/
theorem initApptainerArgs_decomp (isDebug hpkEnv envFileExists : Bool) (u g : Int)
    (instanceName imagePath volumeDir : String) (c : ContainerSpec) :
    initApptainerArgs isDebug hpkEnv u g envFileExists instanceName imagePath volumeDir c =
      initPreArgs isDebug hpkEnv volumeDir c ++ securitySection u g ++
        envFileSection envFileExists instanceName ++ [imagePath] ++
        c.command.getD [] ++ c.args := by
  unfold initApptainerArgs initPreArgs securitySection envFileSection apptainerBaseArgs
  by_cases hu : u = 0 <;> by_cases hg : g = 0 <;> by_cases he : envFileExists = true <;>
    simp [hu, hg, he, List.append_assoc]

/-- Same decomposition for the main-container argument vector. -/
theorem mainApptainerArgs_decomp (isDebug hpkEnv envFileExists : Bool) (u g : Int)
    (instanceName imagePath volumeDir : String) (c : ContainerSpec) :
    mainApptainerArgs isDebug hpkEnv u g envFileExists instanceName imagePath volumeDir c =
      mainPreArgs isDebug hpkEnv volumeDir c ++ securitySection u g ++
        envFileSection envFileExists instanceName ++ [imagePath] ++
        c.command.getD [] ++ c.args := by
  unfold mainApptainerArgs mainPreArgs securitySection envFileSection apptainerBaseArgs
  by_cases hu : u = 0 <;> by_cases hg : g = 0 <;> by_cases he : envFileExists = true <;>
    simp [hu, hg, he, List.append_assoc]

/-- C8: in both launch paths a non-zero uid contributes
`--security uid:<u>,gid:<u>` followed by `--userns`, a non-zero gid
additionally contributes `--security gid:<g>` followed by `--userns`, and
the surrounding argument vector (`pre`/`post`) does not depend on
`(uid, gid)` at all — so a zero uid or gid adds no override. -/
theorem C8_security_overrides (isDebug hpkEnv envFileExists : Bool)
    (instanceName imagePath volumeDir : String) (c : ContainerSpec) (uid gid : Int) :
    (∃ pre post, ∀ u g : Int,
      initApptainerArgs isDebug hpkEnv u g envFileExists instanceName imagePath volumeDir c =
        pre ++ securitySection u g ++ post) ∧
    (∃ pre post, ∀ u g : Int,
      mainApptainerArgs isDebug hpkEnv u g envFileExists instanceName imagePath volumeDir c =
        pre ++ securitySection u g ++ post) ∧
    (uid ≠ 0 → ∃ a b,
      initApptainerArgs isDebug hpkEnv uid gid envFileExists instanceName imagePath volumeDir c =
        a ++ ["--security", "uid:" ++ toString uid ++ ",gid:" ++ toString uid, "--userns"] ++ b) ∧
    (gid ≠ 0 → ∃ a b,
      initApptainerArgs isDebug hpkEnv uid gid envFileExists instanceName imagePath volumeDir c =
        a ++ ["--security", "gid:" ++ toString gid, "--userns"] ++ b) ∧
    (uid ≠ 0 → ∃ a b,
      mainApptainerArgs isDebug hpkEnv uid gid envFileExists instanceName imagePath volumeDir c =
        a ++ ["--security", "uid:" ++ toString uid ++ ",gid:" ++ toString uid, "--userns"] ++ b) ∧
    (gid ≠ 0 → ∃ a b,
      mainApptainerArgs isDebug hpkEnv uid gid envFileExists instanceName imagePath volumeDir c =
        a ++ ["--security", "gid:" ++ toString gid, "--userns"] ++ b) := by
  refine ⟨⟨initPreArgs isDebug hpkEnv volumeDir c,
           envFileSection envFileExists instanceName ++ [imagePath] ++
             c.command.getD [] ++ c.args,
           fun u g => by
             rw [initApptainerArgs_decomp]
             simp [List.append_assoc]⟩,
          ⟨mainPreArgs isDebug hpkEnv volumeDir c,
           envFileSection envFileExists instanceName ++ [imagePath] ++
             c.command.getD [] ++ c.args,
           fun u g => by
             rw [mainApptainerArgs_decomp]
             simp [List.append_assoc]⟩,
          ?_, ?_, ?_, ?_⟩
  · intro hu
    refine ⟨initPreArgs isDebug hpkEnv volumeDir c,
            (if gid ≠ 0 then ["--security", "gid:" ++ toString gid, "--userns"] else []) ++
              envFileSection envFileExists instanceName ++ [imagePath] ++
              c.command.getD [] ++ c.args, ?_⟩
    rw [initApptainerArgs_decomp]
    simp [securitySection, hu, List.append_assoc]
  · intro hg
    refine ⟨initPreArgs isDebug hpkEnv volumeDir c ++
              (if uid ≠ 0 then
                ["--security", "uid:" ++ toString uid ++ ",gid:" ++ toString uid, "--userns"]
              else []),
            envFileSection envFileExists instanceName ++ [imagePath] ++
              c.command.getD [] ++ c.args, ?_⟩
    rw [initApptainerArgs_decomp]
    simp [securitySection, hg, List.append_assoc]
  · intro hu
    refine ⟨mainPreArgs isDebug hpkEnv volumeDir c,
            (if gid ≠ 0 then ["--security", "gid:" ++ toString gid, "--userns"] else []) ++
              envFileSection envFileExists instanceName ++ [imagePath] ++
              c.command.getD [] ++ c.args, ?_⟩
    rw [mainApptainerArgs_decomp]
    simp [securitySection, hu, List.append_assoc]
  · intro hg
    refine ⟨mainPreArgs isDebug hpkEnv volumeDir c ++
              (if uid ≠ 0 then
                ["--security", "uid:" ++ toString uid ++ ",gid:" ++ toString uid, "--userns"]
              else []),
            envFileSection envFileExists instanceName ++ [imagePath] ++
              c.command.getD [] ++ c.args, ?_⟩
    rw [mainApptainerArgs_decomp]
    simp [securitySection, hg, List.append_assoc]

/-- Witness for C8: a container with uid 2 and gid 5 on the init path
carries `--security uid:2,gid:2 --userns`. -/
theorem C8_security_overrides_witness :
    ∃ a b,
      initApptainerArgs false true 2 5 false "ns_pod_c" "/images/app.sif" "/pod/volumes"
          { name := "c", image := "app", command := none, args := [],
            volumeMounts := [] } =
        a ++ ["--security", "uid:" ++ toString (2 : Int) ++ ",gid:" ++ toString (2 : Int),
              "--userns"] ++ b :=
  (C8_security_overrides false true false "ns_pod_c" "/images/app.sif" "/pod/volumes"
    { name := "c", image := "app", command := none, args := [], volumeMounts := [] }
    2 5).2.2.1 (by decide)

/-- C9: with a non-empty volume-bind list, `handleInitContainers`
concatenates the binds onto the last argument built so far regardless of
`hpkEnv` — under `hpkEnv = false` that is the `--unsquash` token, which
becomes `--unsquash,<binds>` and no `--bind` argument is built; under
`hpkEnv = true` it is the `--bind` value.  `handleContainers` instead only
appends the binds to the `--bind` value when `hpkEnv = true` and drops them
entirely when `hpkEnv = false`. -/
theorem C9_bind_concatenation (isDebug envFileExists : Bool) (uid gid : Int)
    (instanceName imagePath volumeDir : String) (c : ContainerSpec) :
    (c.volumeMounts ≠ [] →
      initApptainerArgs isDebug false uid gid envFileExists instanceName imagePath volumeDir c =
        [(if isDebug then "--debug" else "--quiet"), executionMode c.command, "--cleanenv",
         "--writable-tmpfs", "--no-mount", "home",
         "--unsquash" ++ ("," ++ String.intercalate "," (buildBinds volumeDir c.volumeMounts))] ++
          securitySection uid gid ++ envFileSection envFileExists instanceName ++
          [imagePath] ++ c.command.getD [] ++ c.args) ∧
    (c.volumeMounts ≠ [] →
      initApptainerArgs isDebug true uid gid envFileExists instanceName imagePath volumeDir c =
        apptainerBaseArgs isDebug (executionMode c.command) ++
          ["--bind",
           dnsBinds ++ ("," ++ String.intercalate "," (buildBinds volumeDir c.volumeMounts))] ++
          securitySection uid gid ++ envFileSection envFileExists instanceName ++
          [imagePath] ++ c.command.getD [] ++ c.args) ∧
    (mainApptainerArgs isDebug false uid gid envFileExists instanceName imagePath volumeDir c =
      apptainerBaseArgs isDebug (executionMode c.command) ++
        securitySection uid gid ++ envFileSection envFileExists instanceName ++
        [imagePath] ++ c.command.getD [] ++ c.args) ∧
    (c.volumeMounts ≠ [] →
      mainApptainerArgs isDebug true uid gid envFileExists instanceName imagePath volumeDir c =
        apptainerBaseArgs isDebug (executionMode c.command) ++
          ["--bind",
           dnsBinds ++ ("," ++ String.intercalate "," (buildBinds volumeDir c.volumeMounts))] ++
          securitySection uid gid ++ envFileSection envFileExists instanceName ++
          [imagePath] ++ c.command.getD [] ++ c.args) := by
  refine ⟨fun h => ?_, fun h => ?_, ?_, fun h => ?_⟩
  · rw [initApptainerArgs_decomp]
    have hb := buildBinds_length_pos volumeDir c.volumeMounts h
    rw [show initPreArgs isDebug false volumeDir c =
        appendToLast (apptainerBaseArgs isDebug (executionMode c.command))
          ("," ++ String.intercalate "," (buildBinds volumeDir c.volumeMounts)) by
      unfold initPreArgs
      simp [hb]]
    rw [appendToLast_base]
  · rw [initApptainerArgs_decomp]
    have hb := buildBinds_length_pos volumeDir c.volumeMounts h
    rw [show initPreArgs isDebug true volumeDir c =
        appendToLast (apptainerBaseArgs isDebug (executionMode c.command) ++ ["--bind", dnsBinds])
          ("," ++ String.intercalate "," (buildBinds volumeDir c.volumeMounts)) by
      unfold initPreArgs
      simp [hb]]
    rw [appendToLast_base_bind]
  · rw [mainApptainerArgs_decomp]
    rw [show mainPreArgs isDebug false volumeDir c =
        apptainerBaseArgs isDebug (executionMode c.command) by
      unfold mainPreArgs
      simp]
  · rw [mainApptainerArgs_decomp]
    have hb := buildBinds_length_pos volumeDir c.volumeMounts h
    rw [show mainPreArgs isDebug true volumeDir c =
        appendToLast (apptainerBaseArgs isDebug (executionMode c.command) ++ ["--bind", dnsBinds])
          ("," ++ String.intercalate "," (buildBinds volumeDir c.volumeMounts)) by
      unfold mainPreArgs
      simp [hb]]
    rw [appendToLast_base_bind]

/-- Witness for C9 at a concrete container with one read-write volume
mount: under `hpkEnv = false` the init path hides the bind in the
`--unsquash` token while the main path drops it. -/
theorem C9_bind_concatenation_witness :
    (initApptainerArgs false false 0 0 false "ns_pod_c" "/images/app.sif" "/pod/volumes"
        { name := "c", image := "app", command := some ["/bin/sh"], args := [],
          volumeMounts := [{ name := "data", mountPath := "/data", readOnly := false }] } =
      ["--quiet", "exec", "--cleanenv", "--writable-tmpfs", "--no-mount", "home",
       "--unsquash" ++ ("," ++ String.intercalate ","
         (buildBinds "/pod/volumes"
           [{ name := "data", mountPath := "/data", readOnly := false }]))] ++
        securitySection 0 0 ++ envFileSection false "ns_pod_c" ++
        ["/images/app.sif"] ++ ["/bin/sh"] ++ []) ∧
    (mainApptainerArgs false false 0 0 false "ns_pod_c" "/images/app.sif" "/pod/volumes"
        { name := "c", image := "app", command := some ["/bin/sh"], args := [],
          volumeMounts := [{ name := "data", mountPath := "/data", readOnly := false }] } =
      apptainerBaseArgs false "exec" ++ securitySection 0 0 ++
        envFileSection false "ns_pod_c" ++ ["/images/app.sif"] ++ ["/bin/sh"] ++ []) := by
  have h := C9_bind_concatenation false false 0 0 "ns_pod_c" "/images/app.sif" "/pod/volumes"
    { name := "c", image := "app", command := some ["/bin/sh"], args := [],
      volumeMounts := [{ name := "data", mountPath := "/data", readOnly := false }] }
  exact ⟨h.1 (by decide), h.2.2.1⟩

/-- If every `getPodDetails` call fails, the acquisition loop runs until
the 5-minute timer fires. -/
theorem acquireLoop_all_fail (fetch : Nat → Option Nat) (dur : Nat → Nat)
    (hAll : ∀ j, fetch j = none) :
    ∀ m i elapsed, podAcquireDeadline - elapsed ≤ m →
      acquireLoop fetch dur i elapsed = AcquireResult.timeout := by
  intro m
  induction m with
  | zero =>
    intro i elapsed h
    unfold acquireLoop
    have he : podAcquireDeadline ≤ elapsed := by omega
    simp [he]
  | succ m ih =>
    intro i elapsed h
    by_cases he : podAcquireDeadline ≤ elapsed
    · unfold acquireLoop
      simp [he]
    · unfold acquireLoop
      simp only [he, if_false, hAll i]
      apply ih
      simp only [podRetrySleep, podAcquireDeadline] at *
      omega

/-- If the first successful `getPodDetails` call is attempt `i + k` and
every call returns instantaneously, the loop sleeps 5 seconds after each of
the `k` failures and succeeds at attempt `i + k` with elapsed time
`e + 5 * k`. -/
theorem acquireLoop_first_success_at (fetch : Nat → Option Nat) (dur : Nat → Nat)
    (hd : ∀ j, dur j = 0) :
    ∀ k i e, (∀ j, j < k → fetch (i + j) = none) → (fetch (i + k)).isSome →
      e + podRetrySleep * k < podAcquireDeadline →
      acquireLoop fetch dur i e = AcquireResult.success (i + k) (e + podRetrySleep * k) := by
  intro k
  induction k with
  | zero =>
    intro i e _ hsucc hlt
    rcases Option.isSome_iff_exists.mp hsucc with ⟨v, hv⟩
    have he : ¬ podAcquireDeadline ≤ e := by
      simp only [podRetrySleep, podAcquireDeadline] at *
      omega
    unfold acquireLoop
    simp only [Nat.add_zero] at hv
    simp [he, hv, hd i, podFetchRpcTimeout, podRetrySleep]
  | succ k ih =>
    intro i e hfail hsucc hlt
    have he : ¬ podAcquireDeadline ≤ e := by
      simp only [podRetrySleep, podAcquireDeadline] at *
      omega
    have h0 : fetch i = none := by simpa using hfail 0 (Nat.succ_pos k)
    have hrec := ih (i + 1) (e + podRetrySleep)
      (fun j hj => by
        have := hfail (j + 1) (by omega)
        simpa [Nat.add_assoc, Nat.add_comm 1 j] using this)
      (by
        have : i + 1 + k = i + (k + 1) := by omega
        rw [this]
        exact hsucc)
      (by
        simp only [podRetrySleep, podAcquireDeadline] at *
        omega)
    unfold acquireLoop
    simp only [he, if_false, h0, hd i, podFetchRpcTimeout, Nat.min_self]
    have h1 : i + 1 + k = i + (k + 1) := by omega
    have h2 : e + podRetrySleep + podRetrySleep * k = e + podRetrySleep * (k + 1) := by ring
    rw [h1, h2] at hrec
    simpa [podRetrySleep] using hrec

/-- C5: if every poll fails the loop ends in timeout and the process exits
with status 1; if the first success is poll `k` (with instantaneous RPCs)
the loop exits at attempt `k` after `5 * k` seconds of retry sleeps, and
the snapshot used for launching is the result of one further
`getPodDetails` call made outside the loop (call `k + 1`).  The retry
sleep, per-poll RPC timeout and overall deadline are 5 s, 10 s and 300 s. -/
theorem C5_pod_acquisition (w1 w2 : World) (k : Nat)
    (h1 : ∀ j, w1.fetch j = none)
    (h2 : ∀ j, j < k → w2.fetch j = none) (h3 : (w2.fetch k).isSome)
    (h4 : ∀ j, w2.dur j = 0) (h5 : podRetrySleep * k < podAcquireDeadline) :
    acquireLoop w1.fetch w1.dur 0 0 = AcquireResult.timeout ∧
    peaMain w1 = PeaResult.exited 1 [] ∧
    acquireLoop w2.fetch w2.dur 0 0 = AcquireResult.success k (podRetrySleep * k) ∧
    launchSnapshot w2 = w2.fetch (k + 1) ∧
    podRetrySleep = 5 ∧ podFetchRpcTimeout = 10 ∧ podAcquireDeadline = 300 := by
  have ht := acquireLoop_all_fail w1.fetch w1.dur h1 podAcquireDeadline 0 0 (by omega)
  have hs := acquireLoop_first_success_at w2.fetch w2.dur h4 k 0 0
    (fun j hj => by simpa using h2 j hj) (by simpa using h3) (by simpa using h5)
  simp only [Nat.zero_add] at hs
  refine ⟨ht, ?_, hs, ?_, rfl, rfl, rfl⟩
  · unfold peaMain
    rw [ht]
  · unfold launchSnapshot
    rw [hs]

/-- A world whose pod is never returned by the API. -/
def allFailWorld : World :=
  { fetch := fun _ => none, dur := fun _ => 0,
    prep := { mkdirOk := true, kubednsIP := "10.96.0.10", resolvWriteOk := true,
              hostnameOk := true, ifaceOk := true, hostsWriteOk := true,
              announceIfaceOk := true, ipWriteOk := true, unsetenvOk := true },
    inits := [], mains := [] }

/-- A world whose first poll fails and whose later polls return distinct
pod snapshots, distinguishing the in-loop fetch from the post-loop one. -/
def secondTryWorld : World :=
  { fetch := fun i => if i = 0 then none else some (40 + i), dur := fun _ => 0,
    prep := { mkdirOk := true, kubednsIP := "10.96.0.10", resolvWriteOk := true,
              hostnameOk := true, ifaceOk := true, hostsWriteOk := true,
              announceIfaceOk := true, ipWriteOk := true, unsetenvOk := true },
    inits := [], mains := [] }

/-- Witness for C5: with every poll failing the loop times out and the
process exits 1; with the first success at poll 1, the loop exits there
after one 5-second sleep and the launch snapshot is the distinct result of
poll 2. -/
theorem C5_pod_acquisition_witness :
    acquireLoop allFailWorld.fetch allFailWorld.dur 0 0 = AcquireResult.timeout ∧
    peaMain allFailWorld = PeaResult.exited 1 [] ∧
    acquireLoop secondTryWorld.fetch secondTryWorld.dur 0 0 =
      AcquireResult.success 1 (podRetrySleep * 1) ∧
    launchSnapshot secondTryWorld = secondTryWorld.fetch 2 ∧
    podRetrySleep = 5 ∧ podFetchRpcTimeout = 10 ∧ podAcquireDeadline = 300 :=
  C5_pod_acquisition allFailWorld secondTryWorld 1
    (fun _ => rfl)
    (fun j hj => by
      have h0 : j = 0 := by omega
      subst h0
      rfl)
    (by decide)
    (fun _ => rfl)
    (by decide)

theorem handleInit_cons_ok (o : InitOutcome) (rest : List InitOutcome) (i0 : Nat)
    (h : initBlockOk o = true) :
    handleInitContainers (o :: rest) i0 =
      (initBlock o i0 ++ (handleInitContainers rest (i0 + 1)).1,
       (handleInitContainers rest (i0 + 1)).2) := by
  conv_lhs => unfold handleInitContainers
  simp [h]

theorem handleInit_cons_fail (o : InitOutcome) (rest : List InitOutcome) (i0 : Nat)
    (h : initBlockOk o = false) :
    handleInitContainers (o :: rest) i0 = (initBlock o i0, false) := by
  conv_lhs => unfold handleInitContainers
  simp [h]

/-- Every event an iteration emits carries that iteration's container
index. -/
theorem initBlock_cidx (o : InitOutcome) (i : Nat) :
    ∀ e ∈ initBlock o i, e.cidx = i := by
  intro e he
  unfold initBlock at he
  split at he
  · simp at he
  · split at he
    · simp at he
    · split at he
      · simp at he
        subst he
        rfl
      · split at he
        · simp at he
          subst he
          rfl
        · split at he
          · simp at he
            rcases he with rfl | rfl | rfl | rfl <;> rfl
          · simp at he
            rcases he with rfl | rfl | rfl <;> rfl

/-- An iteration never emits main-container events. -/
theorem initBlock_not_main (o : InitOutcome) (i j : Nat) :
    Event.mainStarted j ∉ initBlock o i := by
  intro he
  unfold initBlock at he
  split at he
  · simp at he
  · split at he
    · simp at he
    · split at he
      · simp at he
      · split at he
        · simp at he
        · split at he <;> simp at he

/-- A completed iteration's events, in order: `.id` write, start, exit 0,
`.exitCode` write. -/
theorem initBlock_of_ok (o : InitOutcome) (i : Nat) (h : initBlockOk o = true) :
    initBlock o i =
      [Event.wroteId i, Event.started i, Event.exited i 0, Event.wroteExitCode i] := by
  unfold initBlockOk at h
  unfold initBlock
  rcases o with ⟨ee, eo, ew, io, lo, r, xo⟩
  rcases r with _ | c
  · simp at h
  · rcases c with _ | c
    · cases ee <;> cases eo <;> cases ew <;> cases io <;> cases lo <;> cases xo <;> simp_all
    · simp at h

theorem handleInit_cidx_ge (outs : List InitOutcome) :
    ∀ i0 e, e ∈ (handleInitContainers outs i0).1 → i0 ≤ e.cidx := by
  induction outs with
  | nil =>
    intro i0 e he
    simp [handleInitContainers] at he
  | cons o rest ih =>
    intro i0 e he
    by_cases hok : initBlockOk o
    · rw [handleInit_cons_ok o rest i0 hok] at he
      simp only [List.mem_append] at he
      rcases he with he | he
      · exact (initBlock_cidx o i0 e he).ge
      · exact Nat.le_of_succ_le (ih (i0 + 1) e he)
    · rw [handleInit_cons_fail o rest i0 (by simpa using hok)] at he
      exact (initBlock_cidx o i0 e he).ge

/-- Sequencing: if container `j` was started, the `.exitCode` write of
every earlier container `i` precedes that start in the trace. -/
theorem handleInit_complete_before (outs : List InitOutcome) :
    ∀ i0 i j, i0 ≤ i → i < j →
      Event.started j ∈ (handleInitContainers outs i0).1 →
      Precedes (handleInitContainers outs i0).1 (Event.wroteExitCode i) (Event.started j) := by
  induction outs with
  | nil =>
    intro i0 i j _ _ hj
    simp [handleInitContainers] at hj
  | cons o rest ih =>
    intro i0 i j hi hij hj
    by_cases hok : initBlockOk o
    · rw [handleInit_cons_ok o rest i0 hok] at hj ⊢
      rw [initBlock_of_ok o i0 hok] at hj ⊢
      simp only [List.mem_append] at hj
      rcases hj with hj | hj
      · exfalso
        simp at hj
        omega
      · by_cases hii : i = i0
        · subst hii
          exact ⟨[Event.wroteId i, Event.started i, Event.exited i 0, Event.wroteExitCode i],
                 (handleInitContainers rest (i + 1)).1, rfl, by simp, hj⟩
        · obtain ⟨a, b, hab, h1, h2⟩ := ih (i0 + 1) i j (by omega) hij hj
          exact ⟨[Event.wroteId i0, Event.started i0, Event.exited i0 0,
                  Event.wroteExitCode i0] ++ a, b,
                 by rw [hab, List.append_assoc], by simp [h1], h2⟩
    · rw [handleInit_cons_fail o rest i0 (by simpa using hok)] at hj
      have := initBlock_cidx o i0 _ hj
      simp [Event.cidx] at this
      omega

/-- Abort: a non-zero exit means nothing with a larger index is ever
started and `handleInitContainers` returns an error. -/
theorem handleInit_abort (outs : List InitOutcome) :
    ∀ i0 i c, Event.exited i c ∈ (handleInitContainers outs i0).1 → c ≠ 0 →
      (∀ j, Event.started j ∈ (handleInitContainers outs i0).1 → j ≤ i) ∧
        (handleInitContainers outs i0).2 = false := by
  induction outs with
  | nil =>
    intro i0 i c he _
    simp [handleInitContainers] at he
  | cons o rest ih =>
    intro i0 i c he hc
    by_cases hok : initBlockOk o
    · rw [handleInit_cons_ok o rest i0 hok] at he ⊢
      rw [initBlock_of_ok o i0 hok] at he ⊢
      simp only [List.mem_append] at he
      rcases he with he | he
      · exfalso
        simp at he
        omega
      · have hi1 : i0 + 1 ≤ i := by
          have := handleInit_cidx_ge rest (i0 + 1) _ he
          simpa [Event.cidx] using this
        obtain ⟨h1, h2⟩ := ih (i0 + 1) i c he hc
        refine ⟨?_, h2⟩
        intro j hj
        simp only [List.mem_append] at hj
        rcases hj with hj | hj
        · simp at hj
          omega
        · exact h1 j hj
    · rw [handleInit_cons_fail o rest i0 (by simpa using hok)] at he ⊢
      refine ⟨?_, rfl⟩
      intro j hj
      have h1 := initBlock_cidx o i0 _ he
      have h2 := initBlock_cidx o i0 _ hj
      simp [Event.cidx] at h1 h2
      omega

/-- A run of `handleInitContainers` that returns `nil` records only zero
exits. -/
theorem handleInit_ok_codes (outs : List InitOutcome) :
    ∀ i0, (handleInitContainers outs i0).2 = true →
      ∀ i c, Event.exited i c ∈ (handleInitContainers outs i0).1 → c = 0 := by
  induction outs with
  | nil =>
    intro i0 _ i c he
    simp [handleInitContainers] at he
  | cons o rest ih =>
    intro i0 hsnd i c he
    by_cases hok : initBlockOk o
    · rw [handleInit_cons_ok o rest i0 hok] at he hsnd
      rw [initBlock_of_ok o i0 hok] at he
      simp only [List.mem_append] at he
      rcases he with he | he
      · simp at he
        omega
      · exact ih (i0 + 1) hsnd i c he
    · rw [handleInit_cons_fail o rest i0 (by simpa using hok)] at hsnd
      simp at hsnd

/-- The init phase emits no main-container start events. -/
theorem handleInit_no_main (outs : List InitOutcome) :
    ∀ i0 j, Event.mainStarted j ∉ (handleInitContainers outs i0).1 := by
  induction outs with
  | nil =>
    intro i0 j he
    simp [handleInitContainers] at he
  | cons o rest ih =>
    intro i0 j he
    by_cases hok : initBlockOk o
    · rw [handleInit_cons_ok o rest i0 hok] at he
      simp only [List.mem_append] at he
      rcases he with he | he
      · exact initBlock_not_main o i0 j he
      · exact ih (i0 + 1) j he
    · rw [handleInit_cons_fail o rest i0 (by simpa using hok)] at he
      exact initBlock_not_main o i0 j he

/-- A supervisory task never emits init-container exit events. -/
theorem mainTask_no_init_exited (o : MainOutcome) (i0 i c : Nat) :
    Event.exited i c ∉ (mainTask o i0).1 := by
  intro he
  unfold mainTask at he
  split at he
  · simp at he
  · split at he
    · simp at he
    · split at he
      · simp at he
      · split at he <;> simp at he

/-- The main-container phase emits no init-container exit events. -/
theorem handleContainers_no_init_exited (outs : List MainOutcome) :
    ∀ i0 i c,
      Event.exited i c ∉ ((handleContainers outs i0).1.map Prod.fst).flatten := by
  induction outs with
  | nil =>
    intro i0 i c he
    simp [handleContainers] at he
  | cons o rest ih =>
    intro i0 i c he
    unfold handleContainers at he
    split at he
    · simp at he
    · simp only [List.map_cons, List.flatten_cons, List.mem_append] at he
      rcases he with he | he
      · exact mainTask_no_init_exited o i0 i c he
      · exact ih (i0 + 1) i c he

/-- The possible shapes of a whole run's trace: empty (ended before the
container phases), the init trace alone (init phase returned an error), or
the init trace followed by the main-phase trace (init phase succeeded). -/
theorem peaTrace_cases (w : World) :
    peaTrace w = [] ∨
    (peaTrace w = (handleInitContainers w.inits 0).1 ∧
      (handleInitContainers w.inits 0).2 = false) ∨
    (peaTrace w = (handleInitContainers w.inits 0).1 ++
        ((handleContainers w.mains 0).1.map Prod.fst).flatten ∧
      (handleInitContainers w.inits 0).2 = true) := by
  unfold peaTrace peaMain
  rcases hacq : acquireLoop w.fetch w.dur 0 0 with _ | ⟨k, e⟩
  · left
    rfl
  · dsimp only
    rcases hf : w.fetch (k + 1) with _ | v
    · left
      rfl
    · dsimp only
      cases hp : prepareContainers w.prep
      · left
        simp [hp, PeaResult.trace]
      · cases hi : (handleInitContainers w.inits 0).2
        · right; left
          refine ⟨?_, rfl⟩
          simp [hp, hi, PeaResult.trace]
        · cases hm : ((handleContainers w.mains 0).1.map Prod.snd).any id
          · right; right
            refine ⟨?_, rfl⟩
            simp [hp, hi, hm, PeaResult.trace]
          · right; right
            refine ⟨?_, rfl⟩
            simp [hp, hi, hm, PeaResult.trace]

/-- C4: (i) each init container fully completes — `.exitCode` written —
before any later init container is started; (ii) a non-zero init exit
means no later init container is started and `handleInitContainers`
surfaces the failure; (iii) in a whole run whose trace records a non-zero
init exit, no main container is ever started. -/
theorem C4_init_sequencing_and_abort :
    (∀ (outs : List InitOutcome) (i j : Nat), i < j →
      Event.started j ∈ (handleInitContainers outs 0).1 →
      Precedes (handleInitContainers outs 0).1 (Event.wroteExitCode i) (Event.started j)) ∧
    (∀ (outs : List InitOutcome) (i c : Nat),
      Event.exited i c ∈ (handleInitContainers outs 0).1 → c ≠ 0 →
      (∀ j, Event.started j ∈ (handleInitContainers outs 0).1 → j ≤ i) ∧
        (handleInitContainers outs 0).2 = false) ∧
    (∀ (w : World) (i c : Nat),
      Event.exited i c ∈ peaTrace w → c ≠ 0 →
      ∀ j, Event.mainStarted j ∉ peaTrace w) := by
  refine ⟨fun outs i j hij hj =>
            handleInit_complete_before outs 0 i j (Nat.zero_le i) hij hj,
          fun outs i c he hc => handleInit_abort outs 0 i c he hc,
          fun w i c he hc j hj => ?_⟩
  rcases peaTrace_cases w with h0 | ⟨h1, _⟩ | ⟨h2, hok⟩
  · rw [h0] at he
    simp at he
  · rw [h1] at hj
    exact handleInit_no_main w.inits 0 j hj
  · rw [h2] at he
    simp only [List.mem_append] at he
    rcases he with he | he
    · exact hc (handleInit_ok_codes w.inits 0 hok i c he)
    · exact handleContainers_no_init_exited w.mains 0 i c he

/-- An init container whose child exits 0 with all effects succeeding. -/
def passingInitOutcome : InitOutcome :=
  { envExists := false, envExecOk := true, envWriteOk := true, idWriteOk := true,
    logCreateOk := true, run := RunOutcome.exited 0, exitWriteOk := true }

/-- Witness for C4 on the two-init-container list `[pass, fail]` and on the
`initFailWorld` run. -/
theorem C4_init_sequencing_and_abort_witness :
    Precedes (handleInitContainers [passingInitOutcome, failingInitOutcome] 0).1
      (Event.wroteExitCode 0) (Event.started 1) ∧
    ((∀ j, Event.started j ∈
        (handleInitContainers [passingInitOutcome, failingInitOutcome] 0).1 → j ≤ 1) ∧
      (handleInitContainers [passingInitOutcome, failingInitOutcome] 0).2 = false) ∧
    (∀ j, Event.mainStarted j ∉ peaTrace initFailWorld) := by
  obtain ⟨h1, h2, h3⟩ := C4_init_sequencing_and_abort
  refine ⟨h1 [passingInitOutcome, failingInitOutcome] 0 1 (by decide) (by decide),
          h2 [passingInitOutcome, failingInitOutcome] 1 1 (by decide) (by decide),
          h3 initFailWorld 0 1 ?_ (by decide)⟩
  have hacq : acquireLoop initFailWorld.fetch initFailWorld.dur 0 0 =
      AcquireResult.success 0 0 := by
    simpa using acquireLoop_first_success initFailWorld.fetch initFailWorld.dur 0 rfl
  unfold peaTrace peaMain
  rw [hacq]
  decide

theorem splitOnPred_nosep (p : Char → Bool) (l : List Char) (h : ∀ c ∈ l, p c = false) :
    splitOnPred p l = [l] := by
  induction l with
  | nil => rfl
  | cons c rest ih =>
    have hc : p c = false := h c (List.mem_cons_self c rest)
    have hrest : splitOnPred p rest = [rest] :=
      ih fun x hx => h x (List.mem_cons_of_mem c hx)
    unfold splitOnPred
    simp [hc, hrest]

theorem splitOnPred_cons_sep (p : Char → Bool) (s : Char) (b : List Char) (hs : p s = true) :
    splitOnPred p (s :: b) = [] :: splitOnPred p b := by
  simp [splitOnPred, hs]

theorem splitOnPred_append_sep (p : Char → Bool) (a : List Char) (s : Char) (b : List Char)
    (ha : ∀ c ∈ a, p c = false) (hs : p s = true) :
    splitOnPred p (a ++ s :: b) = a :: splitOnPred p b := by
  induction a with
  | nil =>
    simpa using splitOnPred_cons_sep p s b hs
  | cons c rest ih =>
    have hc : p c = false := ha c (List.mem_cons_self c rest)
    have ih2 := ih fun x hx => ha x (List.mem_cons_of_mem c hx)
    simp only [List.cons_append]
    simp [splitOnPred, hc, ih2]

theorem string_mk_data (s : String) : String.mk s.data = s := rfl

theorem string_data_eq_nil (s : String) (h : s.data = []) : s = "" := by
  rcases s with ⟨d⟩
  have h2 : d = [] := h
  subst h2
  rfl

/-- C7 counterexample: the claim quantifies over every value of
`KUBEDNS_IP`, but `prepareDNS` only rejects the empty string, so a value
with an embedded newline (here `1.1.1.1\nnameserver 2.2.2.2`) is spliced
verbatim into the synthesised content and yields two `nameserver` lines —
with values `1.1.1.1` and `2.2.2.2`, neither equal to the variable — not
exactly one line whose value equals `KUBEDNS_IP`. -/
theorem C7_resolv_conf_counterexample :
    ((strLines (resolvConfContent "default" "1.1.1.1\nnameserver 2.2.2.2")).filter
        (fun l => isNameserverLine l)).map directiveValue
      = [some "1.1.1.1", some "2.2.2.2"] ∧
    ¬ ((strLines (resolvConfContent "default" "1.1.1.1\nnameserver 2.2.2.2")).filter
        (fun l => isNameserverLine l)).map directiveValue
      = [some "1.1.1.1\nnameserver 2.2.2.2"] := by
  constructor
  · decide
  · decide

/-- C7 (amended): for every namespace and `KUBEDNS_IP` value free of
spaces, tabs and newlines — with `KUBEDNS_IP` non-empty, the only guard
`prepareDNS` itself enforces — the synthesised `resolv.conf` content has
exactly one `nameserver` line, whose value is `KUBEDNS_IP`, and the first
element of its `search` line is `<namespace>.svc.cluster.local`. -/
theorem C7_resolv_conf (podNamespace kubeDNSIP : String)
    (hip0 : kubeDNSIP ≠ "")
    (hip : ∀ c ∈ kubeDNSIP.data, c ≠ '\n' ∧ c ≠ ' ' ∧ c ≠ '\t')
    (hns : ∀ c ∈ podNamespace.data, c ≠ '\n' ∧ c ≠ ' ' ∧ c ≠ '\t') :
    ((strLines (resolvConfContent podNamespace kubeDNSIP)).filter
        (fun l => isNameserverLine l)).map directiveValue = [some kubeDNSIP] ∧
    ∃ l0, (strLines (resolvConfContent podNamespace kubeDNSIP)).head? = some l0 ∧
      (lineTokens l0).get? 0 = some "search" ∧
      (lineTokens l0).get? 1 = some (podNamespace ++ ".svc.cluster.local") := by
  have hdata : (resolvConfContent podNamespace kubeDNSIP).data =
      ("search ".data ++ podNamespace.data ++
        ".svc.cluster.local svc.cluster.local cluster.local".data) ++ '\n' ::
        (('\t' :: ("nameserver ".data ++ kubeDNSIP.data)) ++ '\n' ::
          ('\t' :: "options ndots:5".data)) := by
    unfold resolvConfContent
    simp only [String.data_append]
    simp [List.append_assoc]
  have hL1free : ∀ c ∈ ("search ".data ++ podNamespace.data ++
      ".svc.cluster.local svc.cluster.local cluster.local".data), (c == '\n') = false := by
    intro c hc
    simp only [List.mem_append] at hc
    rcases hc with (hc | hc) | hc
    · exact (by decide : ∀ c ∈ "search ".data, (c == '\n') = false) c hc
    · have := (hns c hc).1
      simpa using this
    · exact (by decide :
        ∀ c ∈ ".svc.cluster.local svc.cluster.local cluster.local".data,
          (c == '\n') = false) c hc
  have hL2free : ∀ c ∈ ('\t' :: ("nameserver ".data ++ kubeDNSIP.data)),
      (c == '\n') = false := by
    intro c hc
    rcases List.mem_cons.mp hc with rfl | hc
    · decide
    · rcases List.mem_append.mp hc with hc | hc
      · exact (by decide : ∀ c ∈ "nameserver ".data, (c == '\n') = false) c hc
      · have := (hip c hc).1
        simpa using this
  have hlines : strLines (resolvConfContent podNamespace kubeDNSIP) =
      [String.mk ("search ".data ++ podNamespace.data ++
         ".svc.cluster.local svc.cluster.local cluster.local".data),
       String.mk ('\t' :: ("nameserver ".data ++ kubeDNSIP.data)),
       String.mk ('\t' :: "options ndots:5".data)] := by
    unfold strLines
    rw [hdata]
    rw [splitOnPred_append_sep _ _ _ _ hL1free (by decide)]
    rw [splitOnPred_append_sep _ _ _ _ hL2free (by decide)]
    rw [splitOnPred_nosep _ _
      (by decide : ∀ c ∈ ('\t' :: "options ndots:5".data), (c == '\n') = false)]
    rfl
  have hipws : ∀ c ∈ kubeDNSIP.data, ((c == ' ' || c == '\t') : Bool) = false := by
    intro c hc
    rcases hip c hc with ⟨-, h2, h3⟩
    simp [h2, h3]
  have htok2 : lineTokens (String.mk ('\t' :: ("nameserver ".data ++ kubeDNSIP.data))) =
      ["nameserver", kubeDNSIP] := by
    unfold lineTokens
    dsimp only
    rw [splitOnPred_cons_sep _ '\t' _ (by decide)]
    rw [show ("nameserver ".data ++ kubeDNSIP.data) =
        "nameserver".data ++ ' ' :: kubeDNSIP.data from rfl]
    rw [splitOnPred_append_sep _ _ _ _
      (by decide : ∀ c ∈ "nameserver".data, ((c == ' ' || c == '\t') : Bool) = false)
      (by decide)]
    rw [splitOnPred_nosep _ _ hipws]
    have hipempty : kubeDNSIP.data.isEmpty = false := by
      cases h : kubeDNSIP.data
      · exact absurd (string_data_eq_nil kubeDNSIP h) hip0
      · rfl
    simp [hipempty, string_mk_data]
  have hnsdotws : ∀ c ∈ (podNamespace.data ++ ".svc.cluster.local".data),
      ((c == ' ' || c == '\t') : Bool) = false := by
    intro c hc
    rcases List.mem_append.mp hc with hc | hc
    · rcases hns c hc with ⟨-, h2, h3⟩
      simp [h2, h3]
    · exact (by decide :
        ∀ c ∈ ".svc.cluster.local".data, ((c == ' ' || c == '\t') : Bool) = false) c hc
  have hsplitL1 : ("search ".data ++ podNamespace.data ++
      ".svc.cluster.local svc.cluster.local cluster.local".data) =
      "search".data ++ ' ' :: ((podNamespace.data ++ ".svc.cluster.local".data) ++ ' ' ::
        ("svc.cluster.local".data ++ ' ' :: "cluster.local".data)) := by
    simp [List.append_assoc]
  have hnsdotempty : (podNamespace.data ++ ".svc.cluster.local".data).isEmpty = false := by
    cases h : podNamespace.data <;> simp [h]
  have htok1 : lineTokens (String.mk ("search ".data ++ podNamespace.data ++
      ".svc.cluster.local svc.cluster.local cluster.local".data)) =
      ["search", podNamespace ++ ".svc.cluster.local",
       "svc.cluster.local", "cluster.local"] := by
    unfold lineTokens
    dsimp only
    rw [hsplitL1]
    rw [splitOnPred_append_sep _ _ _ _
      (by decide : ∀ c ∈ "search".data, ((c == ' ' || c == '\t') : Bool) = false)
      (by decide)]
    rw [splitOnPred_append_sep _ _ _ _ hnsdotws (by decide)]
    rw [splitOnPred_append_sep _ _ _ _
      (by decide : ∀ c ∈ "svc.cluster.local".data, ((c == ' ' || c == '\t') : Bool) = false)
      (by decide)]
    rw [splitOnPred_nosep _ _
      (by decide : ∀ c ∈ "cluster.local".data, ((c == ' ' || c == '\t') : Bool) = false)]
    have hmkns : String.mk (podNamespace.data ++ ".svc.cluster.local".data) =
        podNamespace ++ ".svc.cluster.local" := by
      rw [← String.data_append]
    simp [hnsdotempty, hmkns]
  have hn1 : isNameserverLine (String.mk ("search ".data ++ podNamespace.data ++
      ".svc.cluster.local svc.cluster.local cluster.local".data)) = false := by
    unfold isNameserverLine
    rw [htok1]
    rfl
  have hn2 : isNameserverLine
      (String.mk ('\t' :: ("nameserver ".data ++ kubeDNSIP.data))) = true := by
    unfold isNameserverLine
    rw [htok2]
    rfl
  have hn3 : isNameserverLine (String.mk ('\t' :: "options ndots:5".data)) = false := by
    decide
  have hv2 : directiveValue
      (String.mk ('\t' :: ("nameserver ".data ++ kubeDNSIP.data))) = some kubeDNSIP := by
    unfold directiveValue
    rw [htok2]
    rfl
  constructor
  · rw [hlines]
    simp only [List.filter, List.map, hn1, hn2, hn3, hv2]
  · refine ⟨String.mk ("search ".data ++ podNamespace.data ++
      ".svc.cluster.local svc.cluster.local cluster.local".data), ?_, ?_, ?_⟩
    · rw [hlines]
      rfl
    · rw [htok1]
      rfl
    · rw [htok1]
      rfl

/-- Witness for C7 at the namespace `default` and DNS IP `10.96.0.10`. -/
theorem C7_resolv_conf_witness :
    ((strLines (resolvConfContent "default" "10.96.0.10")).filter
        (fun l => isNameserverLine l)).map directiveValue = [some "10.96.0.10"] ∧
    ∃ l0, (strLines (resolvConfContent "default" "10.96.0.10")).head? = some l0 ∧
      (lineTokens l0).get? 0 = some "search" ∧
      (lineTokens l0).get? 1 = some ("default" ++ ".svc.cluster.local") :=
  C7_resolv_conf "default" "10.96.0.10" (by decide) (by decide) (by decide)

end HPK
